import Mathlib

/-
Verification of train_model.py (geo-deep-learning).

This file gives a shallow embedding of the orchestration logic of
train_model.py: hyperparameter resolution, sample-count validation,
class-manifest writing, the per-epoch training/validation loop with
best-loss checkpoint gating, the batch-metric gating in evaluation,
the tensor-shape bookkeeping of the segmentation loss arguments, and
the scheduler stepping of train.

External collaborators (the torch runtime, the metrics module, the
dataset classes, the s3 client) are modelled at their interfaces:
losses are rationals supplied by an oracle, hdf5 archives are their
sample counts (or absent), tensors are their shapes, and side effects
of main are recorded as an event trace.
-/

/-- Task type read from the configuration: classification or segmentation. -/
inductive TaskKind
  | classification
  | segmentation
deriving DecidableEq

/-- Dataset split identifier: trn, val or tst (the three fixed splits). -/
inductive Split
  | trn
  | val
  | tst
deriving DecidableEq

/-- Python exception classes raised by the script: ValueError from
verify_weights, IndexError from get_num_samples, OSError from a missing
hdf5 file, AssertionError from the class-folder count asserts. -/
inductive PyError
  | valueError (msg : String)
  | indexError (msg : String)
  | osError (msg : String)
  | assertionError (msg : String)
deriving DecidableEq

/-- Embeds verify_weights (train_model.py lines 34-41): raises ValueError
when the number of classes differs from the number of class weights. -/
def verify_weights (num_classes : ℕ) (weights : List ℚ) : Except PyError Unit :=
  if num_classes ≠ weights.length then
    Except.error (PyError.valueError
      "The number of class weights in the configuration file is different than the number of classes")
  else
    Except.ok ()

/-- Shape of a 3-D tensor (the per-pixel label map: batch, height, width). -/
structure Shape3 where
  d0 : ℕ
  d1 : ℕ
  d2 : ℕ
deriving DecidableEq

/-- Shape of a 4-D tensor (the model output: batch, classes, height, width). -/
structure Shape4 where
  d0 : ℕ
  d1 : ℕ
  d2 : ℕ
  d3 : ℕ
deriving DecidableEq

/-- Shape effect of tensor.permute(0, 2, 3, 1): dimensions reordered. -/
def Shape4.permute0231 (s : Shape4) : Shape4 :=
  ⟨s.d0, s.d2, s.d3, s.d1⟩

/-- Number of elements of a 4-D tensor. -/
def Shape4.numel (s : Shape4) : ℕ :=
  s.d0 * s.d1 * s.d2 * s.d3

/-- Number of elements of a 3-D tensor. -/
def Shape3.numel (s : Shape3) : ℕ :=
  s.d0 * s.d1 * s.d2

/-- Shape effect of tensor.view(-1, k): all elements regrouped into rows
of k columns (torch requires k to divide the element count). -/
def viewRows (numel k : ℕ) : ℕ × ℕ :=
  (numel / k, k)

/-- Embeds flatten_labels (lines 44-47): annotations.view(-1), a 1-D
tensor holding every element. Returns the resulting length. -/
def flatten_labels (annotations : Shape3) : ℕ :=
  annotations.numel

/-- Embeds flatten_outputs (lines 50-55): permute(0, 2, 3, 1) then
view(-1, number_of_classes). Returns the resulting 2-D shape. -/
def flatten_outputs (predictions : Shape4) (number_of_classes : ℕ) : ℕ × ℕ :=
  let logits_permuted := predictions.permute0231
  viewRows logits_permuted.numel number_of_classes

/-- Shapes of the two arguments train passes to the loss criterion in the
segmentation branch (lines 406-420): flatten_outputs of the model output
and flatten_labels of the label map. -/
def train_seg_loss_args (outputs : Shape4) (map_img : Shape3) (num_classes : ℕ) :
    (ℕ × ℕ) × ℕ :=
  (flatten_outputs outputs num_classes, flatten_labels map_img)

/-- Shapes of the two arguments evaluation passes to the loss criterion in
the segmentation branch (lines 462-473), identical to the train branch. -/
def evaluation_seg_loss_args (outputs : Shape4) (map_img : Shape3) (num_classes : ℕ) :
    (ℕ × ℕ) × ℕ :=
  (flatten_outputs outputs num_classes, flatten_labels map_img)

/-- Modelled from the spec: the Metrics Accumulator (metrics module, not
part of the verified source) is a running-average accumulator holding a
sum, a count and the average; an update with value v and weight n adds
v * n to the sum, n to the count, and recomputes the average. -/
structure AverageMeter where
  sum : ℚ
  count : ℚ
  avg : ℚ
deriving DecidableEq

/-- Fresh accumulator, everything zero. -/
def AverageMeter.init : AverageMeter := ⟨0, 0, 0⟩

/-- Modelled from the spec: one weighted update of the running average. -/
def AverageMeter.update (m : AverageMeter) (value : ℚ) (n : ℕ) : AverageMeter :=
  let s := m.sum + value * n
  let c := m.count + (n : ℚ)
  ⟨s, c, s / c⟩

/-- One batch as train observes it: the loss the criterion returns on it
and the number of samples actually in it (the last batch of an epoch may
be smaller than the configured batch size). -/
structure TrainBatch where
  loss : ℚ
  size : ℕ
deriving DecidableEq

/-- Embeds train (lines 376-428) at the loss-accumulator and scheduler
level: for every batch the loss meter is updated with the configured
batch_size as weight (line 421 passes batch_size, not the actual batch
size), and after the batch loop the scheduler steps exactly once
(line 426). Returns the loss meter and the new scheduler step count. -/
def train (batch_size : ℕ) (batches : List TrainBatch) (scheduler_steps : ℕ) :
    AverageMeter × ℕ :=
  (batches.foldl (fun m b => m.update b.loss batch_size) AverageMeter.init,
   scheduler_steps + 1)

/-- Scheduler step count after running the first n training epochs of
main's epoch loop (lines 302-316), each epoch one call to train. -/
def runTrainEpochs (batchesOf : ℕ → List TrainBatch) (batch_size : ℕ) : ℕ → ℕ
  | 0 => 0
  | n + 1 => (train batch_size (batchesOf n) (runTrainEpochs batchesOf batch_size n)).2

/-- Written from the claim text, for comparison with the code: the mean of
the per-batch losses in which each batch is weighted by its own actual
size. -/
def sizeWeightedMeanSpec (batches : List TrainBatch) : ℚ :=
  (batches.map (fun b => b.loss * (b.size : ℚ))).sum
    / (((batches.map TrainBatch.size).sum : ℕ) : ℚ)

/-- Embeds the metric gate of evaluation (lines 476-483): on the val split
with a configured batch_metrics interval, report_classification runs on
batch indices that are multiples of the interval; on the tst split it runs
on every batch; otherwise never. A configured interval of 0 would raise
ZeroDivisionError in Python and is excluded by the theorems. -/
def metricsComputed (dataset : String) (batch_metrics : Option ℕ) (index : ℕ) : Bool :=
  if dataset == "val" && batch_metrics.isSome then
    match batch_metrics with
    | some k => index % k == 0
    | none => false
  else if dataset == "tst" then
    true
  else
    false

/-- Training section of the yaml configuration, the fields main and
set_hyperparameters read. A value of none is Python None. -/
structure TrainingParams where
  class_weights : Option (List ℚ)
  ignore_index : Option ℤ
  learning_rate : Option ℚ
  weight_decay : Option ℚ
  step_size : Option ℕ
  gamma : Option ℚ
  num_epochs : ℕ
  batch_size : ℕ
  batch_metrics : Option ℕ
  num_trn_samples : Option ℕ
  num_val_samples : Option ℕ
  num_tst_samples : Option ℕ

/-- Global section of the yaml configuration. -/
structure GlobalParams where
  task : TaskKind
  num_classes : ℕ
  bucket_name : Option String

/-- Full configuration: global and training sections. -/
structure Params where
  globalP : GlobalParams
  training : TrainingParams

/-- Constructed CrossEntropyLoss: its weight and ignore_index arguments. -/
structure Criterion where
  weight : Option (List ℚ)
  ignore_index : ℤ
deriving DecidableEq

/-- Constructed Adam optimizer: its lr and weight_decay arguments. -/
structure Optimizer where
  lr : ℚ
  weight_decay : ℚ
deriving DecidableEq

/-- Constructed StepLR scheduler: its step_size and gamma arguments. -/
structure LrScheduler where
  step_size : ℕ
  gamma : ℚ
deriving DecidableEq

/-- Hyperparameters after defaulting (lines 213-246): each configuration
value of None falls back to the framework signature default inspected in
the source (ignore_index -100, lr 1/1000, weight_decay 0, gamma 1/10);
StepLR.step_size has no integer default, so the source replaces it by
num_epochs + 1 (lines 220-222). -/
def resolved_hyperparameters (t : TrainingParams) : Criterion × Optimizer × LrScheduler :=
  (⟨t.class_weights, t.ignore_index.getD (-100)⟩,
   ⟨t.learning_rate.getD (1 / 1000), t.weight_decay.getD 0⟩,
   ⟨t.step_size.getD (t.num_epochs + 1), t.gamma.getD (1 / 10)⟩)

/-- Embeds set_hyperparameters (lines 203-251): when class weights are
supplied, verify_weights runs before any of the loss function, optimizer
and scheduler are constructed (line 227 precedes lines 241-246), so a
ValueError propagates and nothing is constructed. -/
def set_hyperparameters (num_classes : ℕ) (t : TrainingParams) :
    Except PyError (Criterion × Optimizer × LrScheduler) :=
  match t.class_weights with
  | some w =>
    match verify_weights num_classes w with
    | Except.error e => Except.error e
    | Except.ok _ => Except.ok (resolved_hyperparameters t)
  | none => Except.ok (resolved_hyperparameters t)

/-- Lexicographic comparison of character lists by code point, the order
Python list.sort uses on the class-name strings. -/
def strLtB : List Char → List Char → Bool
  | [], [] => false
  | [], _ :: _ => true
  | _ :: _, [] => false
  | a :: as, b :: bs =>
    if a.toNat < b.toNat then true
    else if b.toNat < a.toNat then false
    else strLtB as bs

/-- Boolean less-or-equal on strings via strLtB. -/
def strLeB (a b : String) : Bool :=
  a == b || strLtB a.data b.data

/-- Insertion of a string into an already sorted list. -/
def insertSorted (x : String) : List String → List String
  | [] => [x]
  | y :: ys => if strLeB x y then x :: y :: ys else y :: insertSorted x ys

/-- Embeds classes.sort(): stable ascending sort of the class names. -/
def sortClasses (l : List String) : List String :=
  l.foldr insertSorted []

/-- Embeds get_local_classes (lines 88-96): sort the class folder names,
assert the count matches num_classes, then write them as the single row
of classes.csv. Returns the written row. -/
def get_local_classes (num_classes : ℕ) (folder_classes : List String) :
    Except PyError (List String) :=
  let classes := sortClasses folder_classes
  if num_classes = classes.length then
    Except.ok classes
  else
    Except.error (PyError.assertionError
      "The configuration file specified a number of classes different from the number of class folders found")

/-- Embeds the classes.csv part of get_s3_classification_images
(lines 63-70): sort the bucket subfolder names, assert the count matches
num_classes, then write them as the single row of classes.csv. -/
def get_s3_classification_images (num_classes : ℕ) (subfolder_classes : List String) :
    Except PyError (List String) :=
  let classes := sortClasses subfolder_classes
  if num_classes = classes.length then
    Except.ok classes
  else
    Except.error (PyError.assertionError
      "The configuration file specified a number of classes different from the number of class folders found")

/-- Embeds the classification branch of download_s3_files (lines 118-123):
for each of trn, val and tst in order, get_s3_classification_images writes
one row to classes.csv, each write overwriting the previous file. Returns
the rows written before any failure, and the failure if one occurred. -/
def download_s3_files_writes (num_classes : ℕ) (s3Classes : Split → List String)
    (task : TaskKind) : List (List String) × Option PyError :=
  match task with
  | TaskKind.classification =>
    match get_s3_classification_images num_classes (s3Classes Split.trn) with
    | Except.error e => ([], some e)
    | Except.ok r1 =>
      match get_s3_classification_images num_classes (s3Classes Split.val) with
      | Except.error e => ([r1], some e)
      | Except.ok r2 =>
        match get_s3_classification_images num_classes (s3Classes Split.tst) with
        | Except.error e => ([r1, r2], some e)
        | Except.ok r3 => ([r1, r2, r3], none)
  | TaskKind.segmentation => ([], none)

/-- Classes-manifest writes performed by main before the epoch loop
(lines 268-276): with a bucket, download_s3_files handles both tasks;
without a bucket, get_local_classes runs for classification only. -/
def manifestStage (p : Params) (localClasses : List String)
    (s3Classes : Split → List String) : List (List String) × Option PyError :=
  match p.globalP.bucket_name with
  | some _ => download_s3_files_writes p.globalP.num_classes s3Classes p.globalP.task
  | none =>
    match p.globalP.task with
    | TaskKind.classification =>
      match get_local_classes p.globalP.num_classes localClasses with
      | Except.error e => ([], some e)
      | Except.ok r => ([r], none)
    | TaskKind.segmentation => ([], none)

/-- Message of the IndexError raised by get_num_samples. The source
interpolates the two counts into it; the model keeps a fixed text. -/
def index_error_msg : String :=
  "The number of samples in the configuration file exceeds the number of samples in the hdf5 dataset"

/-- Message of the OSError h5py raises when the archive is absent. -/
def missing_hdf5_msg : String :=
  "Unable to open hdf5 sample archive"

/-- Embeds one split of get_num_samples (lines 187-198). hdf5_len is the
length of the map_img dataset of the split archive, or none when the
archive file is absent (h5py.File then raises OSError). A configured
count is used only when truthy (Python: None and 0 are both falsy); the
archive is opened in every branch. -/
def get_num_samples_split (hdf5_len : Option ℕ) (cfg : Option ℕ) : Except PyError ℕ :=
  match cfg with
  | some n =>
    if n ≠ 0 then
      match hdf5_len with
      | some file_num_samples =>
        if n > file_num_samples then
          Except.error (PyError.indexError index_error_msg)
        else
          Except.ok n
      | none => Except.error (PyError.osError missing_hdf5_msg)
    else
      match hdf5_len with
      | some file_num_samples => Except.ok file_num_samples
      | none => Except.error (PyError.osError missing_hdf5_msg)
  | none =>
    match hdf5_len with
    | some file_num_samples => Except.ok file_num_samples
    | none => Except.error (PyError.osError missing_hdf5_msg)

/-- Configured per-split sample counts of the training section. -/
def numSamplesCfg (t : TrainingParams) : Split → Option ℕ
  | Split.trn => t.num_trn_samples
  | Split.val => t.num_val_samples
  | Split.tst => t.num_tst_samples

/-- Embeds get_num_samples (lines 180-200): the three splits are processed
in the order trn, val, tst and the first exception aborts the whole call. -/
def get_num_samples (hdf5 cfg : Split → Option ℕ) : Except PyError (Split → ℕ) :=
  match get_num_samples_split (hdf5 Split.trn) (cfg Split.trn) with
  | Except.error e => Except.error e
  | Except.ok t =>
    match get_num_samples_split (hdf5 Split.val) (cfg Split.val) with
    | Except.error e => Except.error e
    | Except.ok v =>
      match get_num_samples_split (hdf5 Split.tst) (cfg Split.tst) with
      | Except.error e => Except.error e
      | Except.ok s =>
        Except.ok fun sp =>
          match sp with
          | Split.trn => t
          | Split.val => v
          | Split.tst => s

/-- Observable steps of main, in the order main performs them. -/
inductive Event
  | manifestWrite (row : List String)
  | hyperparamsResolved
  | numSamplesRead (trn vl ts : ℕ)
  | dataloadersBuilt
  | trainEpoch (ep_idx : ℕ)
  | valEval (ep_idx : ℕ)
  | checkpointWrite (ep_idx : ℕ)
  | checkpointRestore
  | tstEval
deriving DecidableEq

/-- Initial value of the best-loss tracker (line 279 of main). -/
def best_loss_init : ℚ := 999

/-- Fixed per-run checkpoint path (line 300 of main): every checkpoint
write of the run overwrites this one file. -/
def checkpoint_filename (output_path : String) : String :=
  output_path ++ "/checkpoint.pth.tar"

/-- Embeds the epoch loop of main (lines 302-351), with the remaining
epoch count as fuel: each epoch trains, evaluates the val split, and
writes a checkpoint exactly when the epoch's validation loss average is
strictly below the current best loss, in which case the best loss becomes
that average. valLossOf is the oracle giving each epoch's validation loss
average. -/
def epochLoopFrom (valLossOf : ℕ → ℚ) (ep_idx : ℕ) (best_loss : ℚ) : ℕ → List Event
  | 0 => []
  | n + 1 =>
    [Event.trainEpoch ep_idx, Event.valEval ep_idx] ++
      (if valLossOf ep_idx < best_loss then [Event.checkpointWrite ep_idx] else []) ++
      epochLoopFrom valLossOf (ep_idx + 1)
        (if valLossOf ep_idx < best_loss then valLossOf ep_idx else best_loss) n

/-- Environment main runs in: the hdf5 archive lengths per split (none
when the file is absent), the local class folders, the bucket class
folders per split, and the validation-loss oracle. -/
structure Env where
  hdf5Samples : Split → Option ℕ
  localClasses : List String
  s3Classes : Split → List String
  valLossOf : ℕ → ℚ

/-- Embeds main (lines 254-373) as an event trace plus the exception that
aborted it, if any: manifest writes (lines 268-276), set_hyperparameters
(line 290), get_num_samples (line 292), dataloader construction
(line 294), the epoch loop started with best_loss = 999 (lines 279 and
302-351), then the unconditional checkpoint restore and test evaluation
(lines 353-365). -/
def mainTrace (p : Params) (env : Env) : List Event × Option PyError :=
  let man := manifestStage p env.localClasses env.s3Classes
  let t0 := man.1.map Event.manifestWrite
  match man.2 with
  | some e => (t0, some e)
  | none =>
    match set_hyperparameters p.globalP.num_classes p.training with
    | Except.error e => (t0, some e)
    | Except.ok _ =>
      let t1 := t0 ++ [Event.hyperparamsResolved]
      match get_num_samples env.hdf5Samples (numSamplesCfg p.training) with
      | Except.error e => (t1, some e)
      | Except.ok ns =>
        let t2 := t1 ++ [Event.numSamplesRead (ns Split.trn) (ns Split.val) (ns Split.tst),
                         Event.dataloadersBuilt]
        (t2 ++ epochLoopFrom env.valLossOf 0 best_loss_init p.training.num_epochs ++
           [Event.checkpointRestore, Event.tstEval], none)

/-- Number of checkpoint writes a trace records for a given epoch. -/
def countWrites (trace : List Event) (ep_idx : ℕ) : ℕ :=
  trace.countP fun ev =>
    match ev with
    | Event.checkpointWrite e => e == ep_idx
    | _ => false

/-- Best-loss value reached after i epochs of the loop when it starts at
epoch ep_idx with value best_loss: the running minimum the loop maintains. -/
def bestFrom (valLossOf : ℕ → ℚ) (ep_idx : ℕ) (best_loss : ℚ) : ℕ → ℚ
  | 0 => best_loss
  | i + 1 =>
    bestFrom valLossOf (ep_idx + 1)
      (if valLossOf ep_idx < best_loss then valLossOf ep_idx else best_loss) i

/-- Best-loss value main holds when epoch ep_idx begins: the minimum of
the sentinel 999 and all earlier validation loss averages. -/
def bestBefore (valLossOf : ℕ → ℚ) (ep_idx : ℕ) : ℚ :=
  bestFrom valLossOf 0 best_loss_init ep_idx

/-- Training section with nothing configured: every override is None,
2 epochs, batch size 4. -/
def tpNone : TrainingParams :=
  { class_weights := none, ignore_index := none, learning_rate := none,
    weight_decay := none, step_size := none, gamma := none,
    num_epochs := 2, batch_size := 4, batch_metrics := none,
    num_trn_samples := none, num_val_samples := none, num_tst_samples := none }

/-- Concrete epoch for the claim C2 analysis: a full batch of 2 samples
with loss 0 followed by a smaller final batch of 1 sample with loss 3,
under a configured batch size of 2. -/
def c2Batches : List TrainBatch := [⟨0, 2⟩, ⟨3, 1⟩]

/-- Validation-loss oracle used to exercise the claim C1 theorem. -/
def vlW : ℕ → ℚ := fun i => if i = 0 then 5 else 3

/-- Bucket classification run used for the claim C7 counterexample. -/
def pC7 : Params :=
  { globalP := { task := TaskKind.classification, num_classes := 2, bucket_name := some "bkt" },
    training := tpNone }

/-- Local classification run used for the claim C7 witness. -/
def pC7L : Params :=
  { globalP := { task := TaskKind.classification, num_classes := 2, bucket_name := none },
    training := tpNone }

/-- Environment with two class folders everywhere and intact archives. -/
def envC7 : Env :=
  { hdf5Samples := fun _ => some 10, localClasses := ["cat", "dog"],
    s3Classes := fun _ => ["dog", "cat"], valLossOf := fun _ => 1 }

/-- Segmentation run whose configured trn sample count (20) exceeds the
archive length (10), for the claim C8 witness. -/
def pC8 : Params :=
  { globalP := { task := TaskKind.segmentation, num_classes := 5, bucket_name := none },
    training := { tpNone with num_trn_samples := some 20 } }

/-- Environment for the claim C8 witness: all archives hold 10 samples. -/
def envC8 : Env :=
  { hdf5Samples := fun _ => some 10, localClasses := [], s3Classes := fun _ => [],
    valLossOf := fun _ => 1 }

/-- Classification run for the claim C9 witness. -/
def pC9 : Params :=
  { globalP := { task := TaskKind.classification, num_classes := 2, bucket_name := none },
    training := tpNone }

/-- Environment for the claim C9 witness: the trn archive is absent. -/
def envC9 : Env :=
  { hdf5Samples := fun s => match s with | Split.trn => none | _ => some 10,
    localClasses := ["b", "a"], s3Classes := fun _ => [], valLossOf := fun _ => 1 }

/-- Segmentation run for the claim C10 witness. -/
def pC10 : Params :=
  { globalP := { task := TaskKind.segmentation, num_classes := 5, bucket_name := none },
    training := tpNone }

/-- Environment for the claim C10 witness: every validation loss is 1000,
never below the 999 sentinel. -/
def envC10 : Env :=
  { hdf5Samples := fun _ => some 10, localClasses := [], s3Classes := fun _ => [],
    valLossOf := fun _ => 1000 }

/-- Claim C4: whenever the configuration supplies class weights whose
count differs from num_classes, set_hyperparameters fails with the
ValueError of verify_weights; since the result is an error, no loss
function (criterion) is constructed. -/
theorem claim_C4_weight_mismatch (num_classes : ℕ) (t : TrainingParams) (w : List ℚ)
    (hw : t.class_weights = some w) (hlen : w.length ≠ num_classes) :
    set_hyperparameters num_classes t =
      Except.error (PyError.valueError
        "The number of class weights in the configuration file is different than the number of classes") := by
  have h : num_classes ≠ w.length := fun hh => hlen hh.symm
  simp [set_hyperparameters, hw, verify_weights, h]

/-- Witness for claim C4 at a concrete input: two weights, three classes. -/
theorem claim_C4_witness :
    set_hyperparameters 3 { tpNone with class_weights := some [1, 1] } =
      Except.error (PyError.valueError
        "The number of class weights in the configuration file is different than the number of classes") :=
  claim_C4_weight_mismatch 3 { tpNone with class_weights := some [1, 1] } [1, 1] rfl
    (by decide)

/-- Claim C3: with a configured interval k on the val split the quality
metrics run exactly on batch indices that are multiples of k; on the tst
split they run on every batch regardless of the interval; on the val
split without an interval they never run. -/
theorem claim_C3_metric_gate (k index : ℕ) (bm : Option ℕ) (_hk : 0 < k) :
    (metricsComputed "val" (some k) index = true ↔ k ∣ index)
      ∧ metricsComputed "tst" bm index = true
      ∧ metricsComputed "val" none index = false := by
  refine ⟨?_, ?_, ?_⟩
  · simp only [metricsComputed]
    simp only [beq_self_eq_true, Option.isSome_some, Bool.and_self, if_true, beq_iff_eq]
    exact Nat.dvd_iff_mod_eq_zero.symm
  · simp [metricsComputed]
  · simp [metricsComputed]

/-- Witness for claim C3 with interval 2: batch 4 is measured. -/
theorem claim_C3_witness :
    metricsComputed "val" (some 2) 4 = true
      ∧ metricsComputed "tst" (some 2) 3 = true
      ∧ metricsComputed "val" none 4 = false := by
  have h := claim_C3_metric_gate 2 4 (some 2) (by decide)
  exact ⟨h.1.mpr (by decide), h.2.1, (claim_C3_metric_gate 2 4 none (by decide)).2.2⟩

/-- Claim C6: for a segmentation batch with label map of shape
(b, h, w) and model output of shape (b, c, h, w), both train and
evaluation hand the loss criterion a (b * h * w, c) output tensor and a
(b * h * w,) label tensor. -/
theorem claim_C6_seg_shapes (b c h w : ℕ) (hc : 0 < c) :
    train_seg_loss_args ⟨b, c, h, w⟩ ⟨b, h, w⟩ c = ((b * h * w, c), b * h * w)
      ∧ evaluation_seg_loss_args ⟨b, c, h, w⟩ ⟨b, h, w⟩ c = ((b * h * w, c), b * h * w) := by
  have hdiv : b * h * w * c / c = b * h * w := by
    rw [Nat.mul_div_assoc _ (dvd_refl c), Nat.div_self hc, Nat.mul_one]
  constructor <;>
    simp [train_seg_loss_args, evaluation_seg_loss_args, flatten_outputs, flatten_labels,
      viewRows, Shape4.permute0231, Shape4.numel, Shape3.numel, hdiv]

/-- Witness for claim C6 at batch 2, 3 classes, 4 x 5 pixels. -/
theorem claim_C6_witness :
    train_seg_loss_args ⟨2, 3, 4, 5⟩ ⟨2, 4, 5⟩ 3 = ((40, 3), 40)
      ∧ evaluation_seg_loss_args ⟨2, 3, 4, 5⟩ ⟨2, 4, 5⟩ 3 = ((40, 3), 40) := by
  have h := claim_C6_seg_shapes 2 3 4 5 (by decide)
  simpa using h

/-- Claim C5: the scheduler steps exactly once per call to train, so after
N training epochs the scheduler step count is N, whatever the batches. -/
theorem claim_C5_scheduler_steps (batchesOf : ℕ → List TrainBatch) (batch_size : ℕ)
    (N : ℕ) : runTrainEpochs batchesOf batch_size N = N := by
  induction N with
  | zero => rfl
  | succ n ih => simp [runTrainEpochs, train, ih]

/-- Sum accumulated by the loss meter over an epoch: every batch
contributes its loss times the constant configured batch size. -/
theorem meter_foldl_sum (B : ℕ) (bs : List TrainBatch) (m : AverageMeter) :
    (bs.foldl (fun m b => m.update b.loss B) m).sum
      = m.sum + (B : ℚ) * (bs.map TrainBatch.loss).sum := by
  induction bs generalizing m with
  | nil => simp
  | cons b bs ih =>
    simp only [List.foldl_cons, List.map_cons, List.sum_cons]
    rw [ih]
    simp only [AverageMeter.update]
    ring

/-- Count accumulated by the loss meter over an epoch: the configured
batch size times the number of batches. -/
theorem meter_foldl_count (B : ℕ) (bs : List TrainBatch) (m : AverageMeter) :
    (bs.foldl (fun m b => m.update b.loss B) m).count
      = m.count + (B : ℚ) * (bs.length : ℚ) := by
  induction bs generalizing m with
  | nil => simp
  | cons b bs ih =>
    simp only [List.foldl_cons, List.length_cons]
    rw [ih]
    simp only [AverageMeter.update]
    push_cast
    ring

/-- After at least one update the meter's avg field is its sum over its
count. -/
theorem meter_foldl_avg (B : ℕ) (bs : List TrainBatch) (m : AverageMeter) (h : bs ≠ []) :
    (bs.foldl (fun m b => m.update b.loss B) m).avg
      = (bs.foldl (fun m b => m.update b.loss B) m).sum
        / (bs.foldl (fun m b => m.update b.loss B) m).count := by
  induction bs generalizing m with
  | nil => exact absurd rfl h
  | cons b bs ih =>
    cases bs with
    | nil => simp [AverageMeter.update]
    | cons b2 bs2 =>
      simp only [List.foldl_cons]
      exact ih (m.update b.loss B) (List.cons_ne_nil b2 bs2)

/-- Counterexample to claim C2: with configured batch size 2, an epoch of
a full batch (loss 0, 2 samples) and a smaller final batch (loss 3,
1 sample) yields a recorded loss average of 3/2, while the mean weighted
by the actual batch sizes is 1. -/
theorem claim_C2_counterexample :
    (train 2 c2Batches 0).1.avg ≠ sizeWeightedMeanSpec c2Batches := by
  norm_num [train, c2Batches, AverageMeter.update, AverageMeter.init, sizeWeightedMeanSpec,
    List.foldl, TrainBatch.loss, TrainBatch.size]

/-- Claim C2 amended: the loss average train records is the per-batch
losses weighted by the constant configured batch size, which is the plain
arithmetic mean of the per-batch losses; actual batch sizes, in
particular a smaller final batch, do not enter it. -/
theorem claim_C2_amended_mean (B : ℕ) (bs : List TrainBatch) (s : ℕ)
    (hB : 0 < B) (hbs : bs ≠ []) :
    (train B bs s).1.avg = (bs.map TrainBatch.loss).sum / (bs.length : ℚ) := by
  have hB' : (B : ℚ) ≠ 0 := by exact_mod_cast hB.ne'
  show (bs.foldl (fun m b => m.update b.loss B) AverageMeter.init).avg = _
  rw [meter_foldl_avg B bs AverageMeter.init hbs, meter_foldl_sum, meter_foldl_count]
  simp only [AverageMeter.init, zero_add]
  rw [mul_div_mul_left _ _ hB']

/-- Witness for the amended claim C2 at the concrete epoch c2Batches. -/
theorem claim_C2_witness :
    (train 2 c2Batches 0).1.avg
      = (c2Batches.map TrainBatch.loss).sum / (c2Batches.length : ℚ) :=
  claim_C2_amended_mean 2 c2Batches 0 (by decide) (by simp [c2Batches])

/-- Checkpoint-write counting distributes over trace concatenation. -/
theorem countWrites_append (t1 t2 : List Event) (ep : ℕ) :
    countWrites (t1 ++ t2) ep = countWrites t1 ep + countWrites t2 ep := by
  simp [countWrites, List.countP_append]

/-- The train and val events of an epoch are not checkpoint writes. -/
theorem countWrites_head (e1 e2 ep : ℕ) :
    countWrites [Event.trainEpoch e1, Event.valEval e2] ep = 0 := by
  simp [countWrites, List.countP_cons]

/-- Counting a single checkpoint write. -/
theorem countWrites_single (e ep : ℕ) :
    countWrites [Event.checkpointWrite e] ep = if e = ep then 1 else 0 := by
  by_cases h : e = ep <;> simp [countWrites, List.countP_cons, h]

/-- Epochs processed later in the loop never write a checkpoint tagged
with an earlier epoch index. -/
theorem countWrites_below (valLossOf : ℕ → ℚ) :
    ∀ (n ep0 : ℕ) (b : ℚ) (ep : ℕ), ep < ep0 →
      countWrites (epochLoopFrom valLossOf ep0 b n) ep = 0 := by
  intro n
  induction n with
  | zero => intro ep0 b ep _; rfl
  | succ n ih =>
    intro ep0 b ep h
    simp only [epochLoopFrom]
    rw [countWrites_append, countWrites_append, countWrites_head,
      ih (ep0 + 1) _ ep (Nat.lt_succ_of_lt h)]
    by_cases hv : valLossOf ep0 < b
    · rw [if_pos hv, countWrites_single, if_neg (by omega)]
    · rw [if_neg hv]
      rfl

/-- Within one run of the loop, the epoch starting at index ep0 + i with
i < n writes exactly one checkpoint when its validation loss is below the
running best at that point, and none otherwise. -/
theorem epochLoop_write_count (valLossOf : ℕ → ℚ) :
    ∀ (n i ep0 : ℕ) (b : ℚ), i < n →
      countWrites (epochLoopFrom valLossOf ep0 b n) (ep0 + i)
        = if valLossOf (ep0 + i) < bestFrom valLossOf ep0 b i then 1 else 0 := by
  intro n
  induction n with
  | zero => intro i ep0 b h; exact absurd h (Nat.not_lt_zero i)
  | succ n ih =>
    intro i ep0 b hi
    cases i with
    | zero =>
      simp only [Nat.add_zero, bestFrom]
      simp only [epochLoopFrom]
      rw [countWrites_append, countWrites_append, countWrites_head,
        countWrites_below valLossOf n (ep0 + 1) _ ep0 (Nat.lt_succ_self ep0)]
      by_cases hv : valLossOf ep0 < b
      · rw [if_pos hv, if_pos hv, countWrites_single, if_pos rfl]
      · rw [if_neg hv, if_neg hv]
        rfl
    | succ j =>
      have hj : j < n := Nat.lt_of_succ_lt_succ hi
      have harith : ep0 + (j + 1) = (ep0 + 1) + j := by omega
      simp only [epochLoopFrom]
      rw [countWrites_append, countWrites_append, countWrites_head]
      have hbest : bestFrom valLossOf ep0 b (j + 1)
          = bestFrom valLossOf (ep0 + 1)
              (if valLossOf ep0 < b then valLossOf ep0 else b) j := rfl
      rw [hbest, harith,
        ih j (ep0 + 1) (if valLossOf ep0 < b then valLossOf ep0 else b) hj]
      by_cases hv : valLossOf ep0 < b
      · rw [if_pos hv, countWrites_single, if_neg (by omega)]
        simp
      · rw [if_neg hv]
        simp [countWrites]

/-- Claim C1: the best-loss tracker starts at the sentinel 999, and in
main's epoch loop the epoch with index ep performs exactly one checkpoint
write when its validation loss average is strictly below the best loss
seen so far (the minimum of the sentinel and all earlier validation
averages), and exactly zero writes otherwise; every write targets the one
fixed per-run file checkpoint_filename. -/
theorem claim_C1_checkpoint_gating :
    best_loss_init = 999 ∧
      ∀ (valLossOf : ℕ → ℚ) (N ep : ℕ), ep < N →
        countWrites (epochLoopFrom valLossOf 0 best_loss_init N) ep
          = if valLossOf ep < bestBefore valLossOf ep then 1 else 0 := by
  refine ⟨rfl, ?_⟩
  intro vl N ep h
  have h0 := epochLoop_write_count vl N ep 0 best_loss_init h
  simpa [bestBefore] using h0

/-- Witness for claim C1: losses 5 then 3 under sentinel 999; epoch 1
improves on the best (5) and writes exactly once. -/
theorem claim_C1_witness :
    countWrites (epochLoopFrom vlW 0 best_loss_init 3) 1 = 1 := by
  have h := claim_C1_checkpoint_gating.2 vlW 3 1 (by decide)
  rw [h]
  norm_num [bestBefore, bestFrom, vlW, best_loss_init]

/-- The epoch loop performs no manifest writes. -/
theorem epochLoop_no_manifest (valLossOf : ℕ → ℚ) :
    ∀ (n ep0 : ℕ) (b : ℚ) (r : List String),
      Event.manifestWrite r ∉ epochLoopFrom valLossOf ep0 b n := by
  intro n
  induction n with
  | zero => intro ep0 b r; simp [epochLoopFrom]
  | succ n ih =>
    intro ep0 b r
    by_cases hv : valLossOf ep0 < b <;>
      simp [epochLoopFrom, hv, ih]

/-- When no validation loss of the remaining epochs improves on the
running best, the loop writes no checkpoint at all (the best value never
changes, so the gate never opens). -/
theorem epochLoop_no_write_of_no_improvement (valLossOf : ℕ → ℚ) :
    ∀ (n ep0 : ℕ) (b : ℚ), (∀ i, i < n → ¬ valLossOf (ep0 + i) < b) →
      ∀ ep, Event.checkpointWrite ep ∉ epochLoopFrom valLossOf ep0 b n := by
  intro n
  induction n with
  | zero => intro ep0 b _ ep; simp [epochLoopFrom]
  | succ n ih =>
    intro ep0 b hno ep
    have h0 : ¬ valLossOf ep0 < b := by
      have := hno 0 (Nat.succ_pos n)
      simpa using this
    have htail : ∀ i, i < n → ¬ valLossOf (ep0 + 1 + i) < b := by
      intro i hi
      have := hno (i + 1) (by omega)
      have harith : ep0 + (i + 1) = ep0 + 1 + i := by omega
      rwa [harith] at this
    have hrec := ih (ep0 + 1) b htail ep
    simp [epochLoopFrom, h0, hrec]

/-- When the pre-loop stages succeed but get_num_samples raises e, main's
trace stops after hyperparameter resolution with that exception. -/
theorem mainTrace_numSamples_error (p : Params) (env : Env) (rows : List (List String))
    (r : Criterion × Optimizer × LrScheduler) (e : PyError)
    (hman : manifestStage p env.localClasses env.s3Classes = (rows, none))
    (hr : set_hyperparameters p.globalP.num_classes p.training = Except.ok r)
    (hns : get_num_samples env.hdf5Samples (numSamplesCfg p.training) = Except.error e) :
    mainTrace p env
      = (rows.map Event.manifestWrite ++ [Event.hyperparamsResolved], some e) := by
  simp [mainTrace, hman, hr, hns]

/-- A split whose archive is absent always raises (h5py.File fails in
every branch of get_num_samples). -/
theorem split_none_error (c : Option ℕ) :
    get_num_samples_split none c = Except.error (PyError.osError missing_hdf5_msg) := by
  cases c <;> simp [get_num_samples_split]

/-- A truthy configured count exceeding the archive length raises the
IndexError. -/
theorem split_exceeds_error (m n : ℕ) (hn : n ≠ 0) (hmn : m < n) :
    get_num_samples_split (some m) (some n)
      = Except.error (PyError.indexError index_error_msg) := by
  simp [get_num_samples_split, hn, hmn]

/-- A split that resolves a sample count has its archive present. -/
theorem split_ok_file_present (h c : Option ℕ) (v : ℕ)
    (hok : get_num_samples_split h c = Except.ok v) : ∃ m, h = some m := by
  cases h with
  | some m => exact ⟨m, rfl⟩
  | none =>
    rw [split_none_error] at hok
    exact absurd hok (by simp)

/-- A split that resolves a truthy configured count does not exceed the
archive length. -/
theorem split_ok_not_exceeding (m n v : ℕ) (hn : n ≠ 0)
    (hok : get_num_samples_split (some m) (some n) = Except.ok v) : ¬ m < n := by
  intro hmn
  rw [split_exceeds_error m n hn hmn] at hok
  exact absurd hok (by simp)

/-- With the archive present, the only exception a split can raise is the
IndexError for an excessive configured count. -/
theorem split_error_with_file (m : ℕ) (c : Option ℕ) (e : PyError)
    (he : get_num_samples_split (some m) c = Except.error e) :
    e = PyError.indexError index_error_msg := by
  cases c with
  | none => simp [get_num_samples_split] at he
  | some n =>
    by_cases hn : n = 0
    · simp [get_num_samples_split, hn] at he
    · by_cases hmn : n > m
      · rw [split_exceeds_error m n hn hmn] at he
        exact (Except.error.inj he).symm
      · simp [get_num_samples_split, hn, hmn] at he

/-- Any absent archive makes get_num_samples raise. -/
theorem get_num_samples_error_of_missing (hdf5 cfg : Split → Option ℕ) (s : Split)
    (hs : hdf5 s = none) :
    ∃ e, get_num_samples hdf5 cfg = Except.error e := by
  unfold get_num_samples
  cases h1 : get_num_samples_split (hdf5 Split.trn) (cfg Split.trn) with
  | error e1 => exact ⟨e1, rfl⟩
  | ok v1 =>
    cases h2 : get_num_samples_split (hdf5 Split.val) (cfg Split.val) with
    | error e2 => exact ⟨e2, rfl⟩
    | ok v2 =>
      cases h3 : get_num_samples_split (hdf5 Split.tst) (cfg Split.tst) with
      | error e3 => exact ⟨e3, rfl⟩
      | ok v3 =>
        exfalso
        cases s with
        | trn =>
          obtain ⟨m, hm⟩ := split_ok_file_present _ _ _ h1
          rw [hs] at hm
          exact Option.noConfusion hm
        | val =>
          obtain ⟨m, hm⟩ := split_ok_file_present _ _ _ h2
          rw [hs] at hm
          exact Option.noConfusion hm
        | tst =>
          obtain ⟨m, hm⟩ := split_ok_file_present _ _ _ h3
          rw [hs] at hm
          exact Option.noConfusion hm

/-- With every archive present, a truthy configured count exceeding its
split's archive length makes get_num_samples raise the IndexError. -/
theorem get_num_samples_indexError_of_exceeding (hdf5 cfg : Split → Option ℕ)
    (hpresent : ∀ s, ∃ m, hdf5 s = some m)
    (s : Split) (n m : ℕ) (hc : cfg s = some n) (hn : n ≠ 0)
    (hm : hdf5 s = some m) (hmn : m < n) :
    get_num_samples hdf5 cfg = Except.error (PyError.indexError index_error_msg) := by
  unfold get_num_samples
  cases h1 : get_num_samples_split (hdf5 Split.trn) (cfg Split.trn) with
  | error e1 =>
    obtain ⟨m1, hm1⟩ := hpresent Split.trn
    rw [hm1] at h1
    rw [split_error_with_file m1 _ e1 h1]
  | ok v1 =>
    cases h2 : get_num_samples_split (hdf5 Split.val) (cfg Split.val) with
    | error e2 =>
      obtain ⟨m2, hm2⟩ := hpresent Split.val
      rw [hm2] at h2
      rw [split_error_with_file m2 _ e2 h2]
    | ok v2 =>
      cases h3 : get_num_samples_split (hdf5 Split.tst) (cfg Split.tst) with
      | error e3 =>
        obtain ⟨m3, hm3⟩ := hpresent Split.tst
        rw [hm3] at h3
        rw [split_error_with_file m3 _ e3 h3]
      | ok v3 =>
        exfalso
        cases s with
        | trn =>
          rw [hm, hc] at h1
          exact split_ok_not_exceeding m n v1 hn h1 hmn
        | val =>
          rw [hm, hc] at h2
          exact split_ok_not_exceeding m n v2 hn h2 hmn
        | tst =>
          rw [hm, hc] at h3
          exact split_ok_not_exceeding m n v3 hn h3 hmn

/-- Claim C8: with intact archives and otherwise valid setup, any run
whose configured per-split sample count exceeds that split's archive
length aborts with the IndexError before any dataloader is built and
before any training epoch runs. -/
theorem claim_C8_excess_sample_count (p : Params) (env : Env) (rows : List (List String))
    (r : Criterion × Optimizer × LrScheduler)
    (hman : manifestStage p env.localClasses env.s3Classes = (rows, none))
    (hr : set_hyperparameters p.globalP.num_classes p.training = Except.ok r)
    (hpresent : ∀ s, ∃ m, env.hdf5Samples s = some m)
    (s : Split) (n m : ℕ)
    (hc : numSamplesCfg p.training s = some n) (hn : n ≠ 0)
    (hm : env.hdf5Samples s = some m) (hmn : m < n) :
    (mainTrace p env).2 = some (PyError.indexError index_error_msg)
      ∧ Event.dataloadersBuilt ∉ (mainTrace p env).1
      ∧ ∀ ep, Event.trainEpoch ep ∉ (mainTrace p env).1 := by
  have hns := get_num_samples_indexError_of_exceeding env.hdf5Samples
    (numSamplesCfg p.training) hpresent s n m hc hn hm hmn
  have htr := mainTrace_numSamples_error p env rows r _ hman hr hns
  rw [htr]
  refine ⟨rfl, by simp, fun ep => by simp⟩

/-- Witness for claim C8 at the concrete run pC8 and environment envC8. -/
theorem claim_C8_witness :
    (mainTrace pC8 envC8).2 = some (PyError.indexError index_error_msg)
      ∧ Event.dataloadersBuilt ∉ (mainTrace pC8 envC8).1
      ∧ Event.trainEpoch 0 ∉ (mainTrace pC8 envC8).1 := by
  have h := claim_C8_excess_sample_count pC8 envC8 []
    (resolved_hyperparameters pC8.training) rfl rfl (fun s => ⟨10, rfl⟩)
    Split.trn 20 10 rfl (by decide) rfl (by decide)
  exact ⟨h.1, h.2.1, h.2.2 0⟩

/-- Claim C9: whatever the task, main reaches get_num_samples, which
opens the three split archives; if any archive is absent the run aborts
before any dataloader is built and before any training epoch runs. -/
theorem claim_C9_archives_required (p : Params) (env : Env) (rows : List (List String))
    (r : Criterion × Optimizer × LrScheduler)
    (hman : manifestStage p env.localClasses env.s3Classes = (rows, none))
    (hr : set_hyperparameters p.globalP.num_classes p.training = Except.ok r)
    (s : Split) (hs : env.hdf5Samples s = none) :
    (∃ e, (mainTrace p env).2 = some e)
      ∧ Event.dataloadersBuilt ∉ (mainTrace p env).1
      ∧ ∀ ep, Event.trainEpoch ep ∉ (mainTrace p env).1 := by
  obtain ⟨e, hns⟩ := get_num_samples_error_of_missing env.hdf5Samples
    (numSamplesCfg p.training) s hs
  have htr := mainTrace_numSamples_error p env rows r e hman hr hns
  rw [htr]
  exact ⟨⟨e, rfl⟩, by simp, fun ep => by simp⟩

/-- Witness for claim C9: a classification run (pC9) whose trn archive is
absent aborts before dataloaders. -/
theorem claim_C9_witness :
    (∃ e, (mainTrace pC9 envC9).2 = some e)
      ∧ Event.dataloadersBuilt ∉ (mainTrace pC9 envC9).1
      ∧ Event.trainEpoch 0 ∉ (mainTrace pC9 envC9).1 := by
  have h := claim_C9_archives_required pC9 envC9 [["a", "b"]]
    (resolved_hyperparameters pC9.training) (by decide) rfl Split.trn rfl
  exact ⟨h.1, h.2.1, h.2.2 0⟩

/-- Claim C10: a run that completes its setup and whose validation losses
never drop below the 999 sentinel finishes without error, never writes a
checkpoint, and still reaches the unconditional checkpoint-restore step
before the final test evaluation. -/
theorem claim_C10_restore_without_write (p : Params) (env : Env)
    (rows : List (List String)) (r : Criterion × Optimizer × LrScheduler)
    (ns : Split → ℕ)
    (hman : manifestStage p env.localClasses env.s3Classes = (rows, none))
    (hr : set_hyperparameters p.globalP.num_classes p.training = Except.ok r)
    (hns : get_num_samples env.hdf5Samples (numSamplesCfg p.training) = Except.ok ns)
    (hnoimp : ∀ ep, ep < p.training.num_epochs → ¬ env.valLossOf ep < best_loss_init) :
    (mainTrace p env).2 = none
      ∧ (∀ ep, Event.checkpointWrite ep ∉ (mainTrace p env).1)
      ∧ Event.checkpointRestore ∈ (mainTrace p env).1 := by
  have hloop : ∀ ep, Event.checkpointWrite ep
      ∉ epochLoopFrom env.valLossOf 0 best_loss_init p.training.num_epochs := by
    intro ep
    refine epochLoop_no_write_of_no_improvement env.valLossOf
      p.training.num_epochs 0 best_loss_init ?_ ep
    intro i hi
    simpa using hnoimp i hi
  refine ⟨?_, ?_, ?_⟩
  · simp [mainTrace, hman, hr, hns]
  · intro ep
    simp [mainTrace, hman, hr, hns, hloop ep]
  · simp [mainTrace, hman, hr, hns]

/-- Witness for claim C10 at the concrete run pC10 and environment envC10
(validation loss constantly 1000, above the sentinel). -/
theorem claim_C10_witness :
    (mainTrace pC10 envC10).2 = none
      ∧ Event.checkpointWrite 0 ∉ (mainTrace pC10 envC10).1
      ∧ Event.checkpointRestore ∈ (mainTrace pC10 envC10).1 := by
  have h := claim_C10_restore_without_write pC10 envC10 []
    (resolved_hyperparameters pC10.training)
    (fun sp => match sp with | Split.trn => 10 | Split.val => 10 | Split.tst => 10)
    rfl rfl rfl (by decide)
  exact ⟨h.1, h.2.1 0, h.2.2⟩

/-- When the class-folder count matches, the s3 manifest helper writes
exactly the sorted class row. -/
theorem get_s3_ok (num_classes : ℕ) (cls : List String)
    (h : (sortClasses cls).length = num_classes) :
    get_s3_classification_images num_classes cls = Except.ok (sortClasses cls) := by
  simp only [get_s3_classification_images]
  rw [if_pos h.symm]

/-- When the class-folder count matches, the local manifest helper writes
exactly the sorted class row. -/
theorem get_local_ok (num_classes : ℕ) (cls : List String)
    (h : (sortClasses cls).length = num_classes) :
    get_local_classes num_classes cls = Except.ok (sortClasses cls) := by
  simp only [get_local_classes]
  rw [if_pos h.symm]

/-- Every manifest write of a run appears at the very start of its trace:
the trace is the manifest rows followed by a remainder containing no
manifest write. -/
theorem mainTrace_manifest_first (p : Params) (env : Env) :
    ∃ rest, (mainTrace p env).1
        = (manifestStage p env.localClasses env.s3Classes).1.map Event.manifestWrite ++ rest
      ∧ ∀ r, Event.manifestWrite r ∉ rest := by
  simp only [mainTrace]
  cases hm2 : (manifestStage p env.localClasses env.s3Classes).2 with
  | some e => exact ⟨[], by simp, by simp⟩
  | none =>
    cases hr : set_hyperparameters p.globalP.num_classes p.training with
    | error e => exact ⟨[], by simp, by simp⟩
    | ok r =>
      cases hns : get_num_samples env.hdf5Samples (numSamplesCfg p.training) with
      | error e => exact ⟨[Event.hyperparamsResolved], by simp, by simp⟩
      | ok ns =>
        refine ⟨[Event.hyperparamsResolved,
          Event.numSamplesRead (ns Split.trn) (ns Split.val) (ns Split.tst),
          Event.dataloadersBuilt] ++
            epochLoopFrom env.valLossOf 0 best_loss_init p.training.num_epochs ++
            [Event.checkpointRestore, Event.tstEval], by simp, ?_⟩
        intro r'
        simp [epochLoop_no_manifest env.valLossOf p.training.num_epochs 0 best_loss_init r']

/-- Counterexample to claim C7: in a bucket classification run the
classes manifest is written three times before training (once per split
by the download loop), not exactly once. -/
theorem claim_C7_counterexample :
    (manifestStage pC7 envC7.localClasses envC7.s3Classes).1.length = 3
      ∧ (manifestStage pC7 envC7.localClasses envC7.s3Classes).1.length ≠ 1 := by
  constructor <;> decide

/-- Claim C7 amended: before training, a local classification run writes
the classes manifest exactly once as the single sorted row of the local
class folders, while a bucket classification run writes it once per
split — three times, each a single sorted row of that split's class
folders, each overwriting the previous; in every run all manifest writes
precede every other event of the trace. -/
theorem claim_C7_amended_manifest (p : Params) (env : Env)
    (htask : p.globalP.task = TaskKind.classification)
    (hlocal : (sortClasses env.localClasses).length = p.globalP.num_classes)
    (hs3 : ∀ s, (sortClasses (env.s3Classes s)).length = p.globalP.num_classes) :
    (p.globalP.bucket_name = none →
        manifestStage p env.localClasses env.s3Classes
          = ([sortClasses env.localClasses], none))
      ∧ (∀ bn, p.globalP.bucket_name = some bn →
          manifestStage p env.localClasses env.s3Classes
            = ([sortClasses (env.s3Classes Split.trn),
                sortClasses (env.s3Classes Split.val),
                sortClasses (env.s3Classes Split.tst)], none))
      ∧ ∃ rest, (mainTrace p env).1
            = (manifestStage p env.localClasses env.s3Classes).1.map Event.manifestWrite
              ++ rest
          ∧ ∀ r, Event.manifestWrite r ∉ rest := by
  refine ⟨?_, ?_, mainTrace_manifest_first p env⟩
  · intro hb
    simp [manifestStage, hb, htask, get_local_ok p.globalP.num_classes env.localClasses hlocal]
  · intro bn hb
    simp [manifestStage, hb, htask, download_s3_files_writes,
      get_s3_ok p.globalP.num_classes (env.s3Classes Split.trn) (hs3 Split.trn),
      get_s3_ok p.globalP.num_classes (env.s3Classes Split.val) (hs3 Split.val),
      get_s3_ok p.globalP.num_classes (env.s3Classes Split.tst) (hs3 Split.tst)]

/-- Witness for the amended claim C7: with two class folders everywhere,
the local run pC7L writes one sorted row and the bucket run pC7 writes
three sorted rows. -/
theorem claim_C7_witness :
    manifestStage pC7L envC7.localClasses envC7.s3Classes = ([["cat", "dog"]], none)
      ∧ manifestStage pC7 envC7.localClasses envC7.s3Classes
          = ([["cat", "dog"], ["cat", "dog"], ["cat", "dog"]], none) := by
  constructor
  · have h := (claim_C7_amended_manifest pC7L envC7 rfl (by decide)
      (by intro s; cases s <;> decide)).1 rfl
    rw [h]
    decide
  · have h := (claim_C7_amended_manifest pC7 envC7 rfl (by decide)
      (by intro s; cases s <;> decide)).2.1 "bkt" rfl
    rw [h]
    decide
